import Mathlib

/-!
Shallow embedding of the Book-store-management-system server (`src/app.js`)
and proofs about its CRUD handlers, cascades and search.

The relational store (PostgreSQL tables `book`, `author`, `publisher`,
`bookauthor`) is modelled as lists of rows; each Express route handler
becomes a pure function from a store state (plus its request parameters)
to a new state and a handler outcome.  SQL statements are translated
one-by-one: `SELECT ... WHERE` becomes `List.filter`/`List.find?`,
`UPDATE ... WHERE` becomes `List.map` with a conditional row rewrite,
`DELETE ... WHERE` becomes `List.filter` with the negated condition,
`INSERT` becomes an append.  `db.tx` (used only by the publisher rename)
is modelled by an explicit error oracle per statement: when a statement
errors the whole transaction leaves the state unchanged.
-/

namespace BookStore

/-- A row of the `book` table (`isbn` is the primary key). -/
structure Book where
  isbn : String
  title : String
  year : Int
  price : Int
  publisher_name : String
deriving Repr, DecidableEq

/-- A row of the `author` table (`author_id` is the key). -/
structure Author where
  author_id : Nat
  name : String
  url : String
  address : String
deriving Repr, DecidableEq

/-- A row of the `publisher` table (`name` is the natural key). -/
structure Publisher where
  name : String
  address : String
  url : String
  phone : String
deriving Repr, DecidableEq

/-- A row of the `bookauthor` join table. -/
structure BookAuthor where
  author_id : Nat
  book_isbn : String
deriving Repr, DecidableEq

/-- The whole relational store: the four tables of the schema. -/
structure DBState where
  books : List Book
  authors : List Author
  publishers : List Publisher
  bookauthors : List BookAuthor
deriving Repr, DecidableEq

/-- Outcome of a route handler: where it redirects, what it renders, or
how it fails (errors thrown by `db` calls reach the centralized
`errorHandler`, which renders a generic failure page). -/
inductive HandlerResult where
  | redirect (loc : String)
  | flashRedirect (msg loc : String)
  | validationError (fields : List String)
  | uniqueViolation
  | serverError
deriving Repr, DecidableEq

/-! ### Search (`GET /search`, app.js lines 58-94) -/

/-- JavaScript `String.prototype.trim`: strip leading and trailing
whitespace (modelled over the character list). -/
def trimChars (s : String) : String :=
  String.mk ((s.toList.dropWhile Char.isWhitespace).reverse.dropWhile
    Char.isWhitespace).reverse

/-- `needle` matches at the head of `hay` (character-list comparison). -/
def matchesAt : List Char → List Char → Bool
  | _, [] => true
  | [], _ :: _ => false
  | c :: cs, d :: ds => c == d && matchesAt cs ds

/-- `needle` occurs somewhere inside `hay`. -/
def occursIn : List Char → List Char → Bool
  | [], needle => needle.isEmpty
  | hay@(_ :: rest), needle => matchesAt hay needle || occursIn rest needle

/-- `hay ILIKE '%term%'`: case-insensitive substring match, as the two
`ILIKE $1` queries with a `%`-wrapped parameter behave on terms without
SQL wildcard characters. -/
def ilikeContains (hay term : String) : Bool :=
  occursIn hay.toLower.toList term.toLower.toList

/-- `SELECT * FROM book WHERE isbn = $1` (exact match). -/
def searchByIsbn (st : DBState) (term : String) : List Book :=
  st.books.filter (fun b => b.isbn == term)

/-- `SELECT * FROM book WHERE publisher_name ILIKE '%term%'`. -/
def searchByPublisher (st : DBState) (term : String) : List Book :=
  st.books.filter (fun b => ilikeContains b.publisher_name term)

/-- `SELECT b.* FROM book b JOIN bookauthor ba ON b.isbn = ba.book_isbn
JOIN author a ON a.author_id = ba.author_id WHERE a.name ILIKE '%term%'`:
one result row per matching (book, link, author) combination. -/
def searchByAuthor (st : DBState) (term : String) : List Book :=
  st.books.flatMap (fun b =>
    st.bookauthors.flatMap (fun ba =>
      if ba.book_isbn == b.isbn then
        (st.authors.filter
          (fun a => a.author_id == ba.author_id && ilikeContains a.name term)).map
          (fun _ => b)
      else []))

/-- What `GET /search` does: redirect to the listing, or render the
results page with the found rows and the `searchType` tag. -/
inductive SearchOutcome where
  | redirectBooks
  | results (books : List Book) (searchType : String)
deriving Repr, DecidableEq

/-- `GET /search`: trim the query (`req.query.query?.trim()`), redirect
to `/books` when it is missing or blank, otherwise try ISBN, then
publisher, then author, tagging the first strategy that returned rows;
`searchType` stays `""` when none did. -/
def searchHandler (st : DBState) (query : Option String) : SearchOutcome :=
  match query.map trimChars with
  | none => .redirectBooks
  | some searchTerm =>
    if searchTerm = "" then .redirectBooks
    else
      let r1 := searchByIsbn st searchTerm
      if r1.length ≠ 0 then .results r1 "isbn"
      else
        let r2 := searchByPublisher st searchTerm
        if r2.length ≠ 0 then .results r2 "publisher"
        else
          let r3 := searchByAuthor st searchTerm
          if r3.length ≠ 0 then .results r3 "author"
          else .results r3 ""

/-- C10: a `GET /search` whose query parameter is missing, empty, or
whitespace-only after trimming redirects to the book listing and renders
no search-results page. -/
theorem searchHandler_blank_redirects (st : DBState) (query : Option String)
    (h : query = none ∨ ∃ q, query = some q ∧ trimChars q = "") :
    searchHandler st query = .redirectBooks := by
  rcases h with h | ⟨q, rfl, hq⟩
  · subst h; rfl
  · simp [searchHandler, hq]

/-- Witness for C10 at concrete blank inputs. -/
theorem searchHandler_blank_redirects_witness :
    searchHandler ⟨[], [], [], []⟩ (some "   ") = .redirectBooks :=
  searchHandler_blank_redirects ⟨[], [], [], []⟩ (some "   ")
    (Or.inr ⟨"   ", rfl, by decide⟩)

/-- C2: for a query whose trimmed term is non-empty, the handler tries
ISBN exact match, then publisher substring match, then author substring
match, returns the first non-empty result set with the tag of the
strategy that produced it, and returns an empty result with the empty
tag when all three strategies find nothing. -/
theorem searchHandler_fallback_order (st : DBState) (q : String)
    (h : trimChars q ≠ "") :
    (searchByIsbn st (trimChars q) ≠ [] →
      searchHandler st (some q) = .results (searchByIsbn st (trimChars q)) "isbn")
  ∧ (searchByIsbn st (trimChars q) = [] → searchByPublisher st (trimChars q) ≠ [] →
      searchHandler st (some q) = .results (searchByPublisher st (trimChars q)) "publisher")
  ∧ (searchByIsbn st (trimChars q) = [] → searchByPublisher st (trimChars q) = [] →
      searchByAuthor st (trimChars q) ≠ [] →
      searchHandler st (some q) = .results (searchByAuthor st (trimChars q)) "author")
  ∧ (searchByIsbn st (trimChars q) = [] → searchByPublisher st (trimChars q) = [] →
      searchByAuthor st (trimChars q) = [] →
      searchHandler st (some q) = .results [] "") := by
  refine ⟨?_, ?_, ?_, ?_⟩ <;> intros h1
  · simp [searchHandler, h, List.length_eq_zero, h1]
  · intro h2
    simp [searchHandler, h, List.length_eq_zero, h1, h2]
  · intro h2 h3
    simp [searchHandler, h, List.length_eq_zero, h1, h2, h3]
  · intro h2 h3
    simp [searchHandler, h, List.length_eq_zero, h1, h2, h3]

/-- Witness for C2: a store with one book found by exact ISBN. -/
theorem searchHandler_fallback_order_witness :
    searchHandler
      ⟨[⟨"111", "T", 2020, 10, "P"⟩], [], [], []⟩ (some "111")
    = .results
        (searchByIsbn ⟨[⟨"111", "T", 2020, 10, "P"⟩], [], [], []⟩
          (trimChars "111")) "isbn" :=
  (searchHandler_fallback_order
      ⟨[⟨"111", "T", 2020, 10, "P"⟩], [], [], []⟩ "111" (by decide)).1
    (by decide)

/-! ### Book creation (`POST /books`, app.js lines 151-174) -/

/-- The form payload `req.body.book` of the book routes; a field is
`none` when the form did not supply it. -/
structure BookPayload where
  title : Option String
  isbn : Option String
  author_id : Option Nat
  publisher_name : Option String
  publication_year : Option Int
  price : Option Int
deriving Repr, DecidableEq

/-- Modelled from the spec: the `validateBook` rule set of the
validation middleware (`middleware/validation.js`, required by app.js
but not under `src/`).  Per §4.5 it fails with a ValidationError
enumerating all violated fields when required fields are missing or
malformed (for example a negative price); the exact rule list is an
external detail, so only the spec's named examples are modelled. -/
def validateBook (p : BookPayload) : List String :=
  (if p.title.isNone then ["title"] else []) ++
  (if p.isbn.isNone then ["isbn"] else []) ++
  (if p.author_id.isNone then ["author_id"] else []) ++
  (if p.publisher_name.isNone then ["publisher_name"] else []) ++
  (if p.publication_year.isNone then ["publication_year"] else []) ++
  (match p.price with
   | some pr => if pr < 0 then ["price"] else []
   | none => ["price"])

/-- The two INSERTs of `POST /books` (app.js lines 158-170).  The
primary-key constraint on `book.isbn` and the foreign-key constraint of
`bookauthor.author_id` are modelled from the spec and the README
("PostgreSQL schema with proper foreign keys"; §4.1 UniqueConstraintViolation),
since the schema file is not under `src/`: a duplicate ISBN makes the
first INSERT fail before any row is written, and an unknown author makes
the second INSERT fail after the book row was already inserted (the two
statements are not wrapped in a transaction, §4.1). -/
def createBook (st : DBState) (isbn title : String)
    (publication_year price : Int) (publisher_name : String)
    (author_id : Nat) : DBState × HandlerResult :=
  if st.books.any (fun b => b.isbn == isbn) then
    (st, .uniqueViolation)
  else
    let stB := { st with books := st.books ++
      [{ isbn := isbn, title := title, year := publication_year,
         price := price, publisher_name := publisher_name }] }
    if st.authors.any (fun a => a.author_id == author_id) then
      ({ stB with bookauthors := stB.bookauthors ++
          [{ author_id := author_id, book_isbn := isbn }] },
       .redirect "/books")
    else
      (stB, .serverError)

/-- `POST /books`: the `validateBook` middleware runs first; only when
it passes does the handler destructure the payload and insert. -/
def postBooks (st : DBState) (p : BookPayload) : DBState × HandlerResult :=
  let errs := validateBook p
  if errs = [] then
    createBook st (p.isbn.getD "") (p.title.getD "")
      (p.publication_year.getD 0) (p.price.getD 0)
      (p.publisher_name.getD "") (p.author_id.getD 0)
  else
    (st, .validationError errs)

/-! ### Book update and delete (`PUT /books/:isbn`, `DELETE
/books/delete/:isbn`, app.js lines 203-253) -/

/-- `PUT /books/:isbn` (after `validateBook` passed): one UPDATE on
`book` overwriting title/year/price/publisher_name where the ISBN
matches, one UPDATE on `bookauthor` overwriting the author where the
ISBN matches, then a redirect.  No existence check is performed. -/
def putBook (st : DBState) (isbn title : String)
    (publication_year price : Int) (publisher_name : String)
    (author_id : Nat) : DBState × HandlerResult :=
  let newBooks := st.books.map (fun (b : Book) =>
    if b.isbn == isbn then
      { b with title := title, year := publication_year, price := price,
               publisher_name := publisher_name }
    else b)
  let st1 := { st with books := newBooks }
  let newLinks := st1.bookauthors.map (fun (ba : BookAuthor) =>
    if ba.book_isbn == isbn then { ba with author_id := author_id }
    else ba)
  let st2 := { st1 with bookauthors := newLinks }
  (st2, .redirect "/books")

/-- `db.one("SELECT * FROM book WHERE isbn = $1")` as used by
`GET /books/:isbn/edit`: `none` means the row is absent and `db.one`
throws (NotFound). -/
def getBook (st : DBState) (isbn : String) : Option Book :=
  st.books.find? (fun b => b.isbn == isbn)

/-- `DELETE /books/delete/:isbn`: check existence (flash + redirect when
absent), then delete the `bookauthor` rows for the ISBN, then the book
row. -/
def deleteBook (st : DBState) (isbn : String) : DBState × HandlerResult :=
  match st.books.find? (fun b => b.isbn == isbn) with
  | none => (st, .flashRedirect "Book not found!" "/books")
  | some _ =>
    let newLinks := st.bookauthors.filter (fun ba => !(ba.book_isbn == isbn))
    let st1 := { st with bookauthors := newLinks }
    let newBooks := st1.books.filter (fun b => !(b.isbn == isbn))
    let st2 := { st1 with books := newBooks }
    (st2, .redirect "/books")

/-! ### Author update and delete (`PUT /authors/:id`, `DELETE
/authors/delete/:id`, app.js lines 299-342) -/

/-- `PUT /authors/:id`: one UPDATE overwriting name/url/address where
the id matches, then a redirect.  No existence check is performed. -/
def putAuthor (st : DBState) (id : Nat) (name url address : String) :
    DBState × HandlerResult :=
  let newAuthors := st.authors.map (fun (a : Author) =>
    if a.author_id == id then
      { a with name := name, url := url, address := address }
    else a)
  ({ st with authors := newAuthors }, .redirect "/authors")

/-- `DELETE /authors/delete/:id`: check existence (flash + redirect when
absent), then delete the `bookauthor` rows for the id, then the author
row. -/
def deleteAuthor (st : DBState) (id : Nat) : DBState × HandlerResult :=
  match st.authors.find? (fun a => a.author_id == id) with
  | none => (st, .flashRedirect "Author not found!" "/authors")
  | some _ =>
    let newLinks := st.bookauthors.filter (fun ba => !(ba.author_id == id))
    let st1 := { st with bookauthors := newLinks }
    let newAuthors := st1.authors.filter (fun a => !(a.author_id == id))
    let st2 := { st1 with authors := newAuthors }
    (st2, .redirect "/authors")

/-! ### Publisher rename (`PUT /publishers/:name`, app.js lines 383-407) -/

/-- `UPDATE publisher SET name = $1, address = $2, phone = $3 WHERE
name = $4` (the `url` column is not touched). -/
def updatePublisherRow (ps : List Publisher)
    (oldName newName address phone : String) : List Publisher :=
  ps.map (fun p =>
    if p.name == oldName then
      { p with name := newName, address := address, phone := phone }
    else p)

/-- `UPDATE book SET publisher_name = $1 WHERE publisher_name = $2`. -/
def reattributeBooks (bs : List Book) (oldName newName : String) :
    List Book :=
  bs.map (fun b =>
    if b.publisher_name == oldName then { b with publisher_name := newName }
    else b)

/-- `PUT /publishers/:name`: both UPDATEs run inside `db.tx`.  `err1`
and `err2` say whether the first or second statement errors; the
transaction semantics make any statement error discard every effect
(rollback) and surface a generic failure through the error handler.
The book reattribution only runs when `new_name !== name`. -/
def putPublisher (st : DBState) (name new_name address phone : String)
    (err1 err2 : Bool) : DBState × HandlerResult :=
  if err1 then (st, .serverError)
  else
    let newPubs := updatePublisherRow st.publishers name new_name address phone
    let st1 := { st with publishers := newPubs }
    if new_name ≠ name then
      if err2 then (st, .serverError)
      else ({ st1 with books := reattributeBooks st1.books name new_name },
            .redirect "/publishers")
    else (st1, .redirect "/publishers")

/-! ### Publisher delete (`DELETE /publishers/delete/:name`, app.js
lines 409-443) -/

/-- `SELECT isbn FROM book WHERE publisher_name = $1`. -/
def publisherBookIsbns (st : DBState) (name : String) : List String :=
  (st.books.filter (fun b => b.publisher_name == name)).map (fun b => b.isbn)

/-- The `for (let book of books)` loop: one
`DELETE FROM bookauthor WHERE book_isbn = $1` per fetched ISBN. -/
def deleteJoinRowsFor (bas : List BookAuthor) (isbns : List String) :
    List BookAuthor :=
  isbns.foldl (fun acc i => acc.filter (fun ba => !(ba.book_isbn == i))) bas

/-- `DELETE /publishers/delete/:name`: check existence (flash + redirect
when absent), fetch the publisher's book ISBNs, delete their join rows,
then the books, then the publisher row. -/
def deletePublisher (st : DBState) (name : String) :
    DBState × HandlerResult :=
  match st.publishers.find? (fun p => p.name == name) with
  | none => (st, .flashRedirect "Publisher not found!" "/publishers")
  | some _ =>
    let isbns := publisherBookIsbns st name
    let st1 := { st with bookauthors := deleteJoinRowsFor st.bookauthors isbns }
    let newBooks := st1.books.filter (fun b => !(b.publisher_name == name))
    let st2 := { st1 with books := newBooks }
    let newPubs := st2.publishers.filter (fun p => !(p.name == name))
    let st3 := { st2 with publishers := newPubs }
    (st3, .redirect "/publishers")

/-- Number of `bookauthor` rows attached to one ISBN. -/
def linkCount (st : DBState) (isbn : String) : Nat :=
  (st.bookauthors.filter (fun ba => ba.book_isbn == isbn)).length

/-! ### Claims -/

/-- A row-wise no-op UPDATE leaves a table unchanged. -/
theorem map_self_of_forall {α : Type} {f : α → α} {l : List α}
    (h : ∀ a ∈ l, f a = a) : l.map f = l := by
  induction l with
  | nil => rfl
  | cons a as ih =>
    simp only [List.map_cons]
    rw [h a (List.mem_cons_self a as),
        ih (fun x hx => h x (List.mem_cons_of_mem a hx))]

/-- C6: creating a book whose ISBN already exists fails with a
UniqueConstraintViolation and leaves the store - in particular the prior
book row with all its fields - unchanged. -/
theorem createBook_duplicate_isbn (st : DBState) (isbn title : String)
    (publication_year price : Int) (publisher_name : String)
    (author_id : Nat) (h : ∃ b ∈ st.books, b.isbn = isbn) :
    createBook st isbn title publication_year price publisher_name author_id
      = (st, .uniqueViolation) := by
  obtain ⟨b, hb, hbi⟩ := h
  have hany : st.books.any (fun b => b.isbn == isbn) = true :=
    List.any_eq_true.mpr ⟨b, hb, by simp [hbi]⟩
  simp [createBook, hany]

/-- Witness for C6: re-inserting ISBN "111" is rejected and the store is
unchanged. -/
theorem createBook_duplicate_isbn_witness :
    createBook ⟨[⟨"111", "T", 2020, 10, "P"⟩], [], [], []⟩
      "111" "Other" 1999 3 "Q" 7
    = (⟨[⟨"111", "T", 2020, 10, "P"⟩], [], [], []⟩, .uniqueViolation) :=
  createBook_duplicate_isbn ⟨[⟨"111", "T", 2020, 10, "P"⟩], [], [], []⟩
    "111" "Other" 1999 3 "Q" 7 (by decide)

/-- C8: a book-creation payload that fails validation is rejected with a
ValidationError before any persistence runs: the store (hence every
table's row count) is unchanged and neither INSERT happens. -/
theorem postBooks_validation_failure (st : DBState) (p : BookPayload)
    (h : validateBook p ≠ []) :
    postBooks st p = (st, .validationError (validateBook p)) := by
  simp [postBooks, h]

/-- Witness for C8: a payload missing the required title performs no
insert on a one-book store. -/
theorem postBooks_validation_failure_witness :
    postBooks ⟨[⟨"111", "T", 2020, 10, "P"⟩], [], [], []⟩
      ⟨none, some "222", some 1, some "P", some 2020, some 10⟩
    = (⟨[⟨"111", "T", 2020, 10, "P"⟩], [], [], []⟩,
       .validationError ["title"]) :=
  postBooks_validation_failure ⟨[⟨"111", "T", 2020, 10, "P"⟩], [], [], []⟩
    ⟨none, some "222", some 1, some "P", some 2020, some 10⟩ (by decide)

/-- C5: deleting a book, author or publisher whose key is absent fails
with the route's not-found flash redirect before any row is touched: the
store is returned unchanged. -/
theorem delete_absent_not_found (st : DBState) (isbn : String) (id : Nat)
    (name : String) :
    ((∀ b ∈ st.books, b.isbn ≠ isbn) →
      deleteBook st isbn = (st, .flashRedirect "Book not found!" "/books"))
  ∧ ((∀ a ∈ st.authors, a.author_id ≠ id) →
      deleteAuthor st id = (st, .flashRedirect "Author not found!" "/authors"))
  ∧ ((∀ p ∈ st.publishers, p.name ≠ name) →
      deletePublisher st name
        = (st, .flashRedirect "Publisher not found!" "/publishers")) := by
  refine ⟨?_, ?_, ?_⟩ <;> intro h
  · have hf : st.books.find? (fun b => b.isbn == isbn) = none :=
      List.find?_eq_none.mpr (fun b hb => by simp [h b hb])
    simp [deleteBook, hf]
  · have hf : st.authors.find? (fun a => a.author_id == id) = none :=
      List.find?_eq_none.mpr (fun a ha => by simp [h a ha])
    simp [deleteAuthor, hf]
  · have hf : st.publishers.find? (fun p => p.name == name) = none :=
      List.find?_eq_none.mpr (fun p hp => by simp [h p hp])
    simp [deletePublisher, hf]

/-- Witness for C5: all three deletes on an empty store flash-redirect
and change nothing. -/
theorem delete_absent_not_found_witness :
    deleteBook ⟨[], [], [], []⟩ "111"
      = (⟨[], [], [], []⟩, .flashRedirect "Book not found!" "/books")
  ∧ deleteAuthor ⟨[], [], [], []⟩ 1
      = (⟨[], [], [], []⟩, .flashRedirect "Author not found!" "/authors")
  ∧ deletePublisher ⟨[], [], [], []⟩ "P"
      = (⟨[], [], [], []⟩,
         .flashRedirect "Publisher not found!" "/publishers") :=
  ⟨(delete_absent_not_found ⟨[], [], [], []⟩ "111" 1 "P").1 (by decide),
   (delete_absent_not_found ⟨[], [], [], []⟩ "111" 1 "P").2.1 (by decide),
   (delete_absent_not_found ⟨[], [], [], []⟩ "111" 1 "P").2.2 (by decide)⟩

/-- C4 counterexample: on an empty store the ISBN "111" does not exist,
yet `PUT /books/111` does not fail with NotFound - it runs its UPDATEs
against zero rows and redirects exactly as on success. -/
theorem putBook_absent_isbn_redirects :
    getBook ⟨[], [], [], []⟩ "111" = none
  ∧ putBook ⟨[], [], [], []⟩ "111" "T" 2020 10 "P" 1
      = (⟨[], [], [], []⟩, .redirect "/books")
  ∧ putAuthor ⟨[], [], [], []⟩ 1 "N" "u" "a"
      = (⟨[], [], [], []⟩, .redirect "/authors") := by
  refine ⟨rfl, ?_, ?_⟩ <;> rfl

/-- C4 amended: the update routes perform no existence check and never
fail with NotFound.  When the key is absent the UPDATEs match zero rows,
the store is unchanged (for books: provided no join row dangles on the
absent ISBN) and the handler redirects as on success; when the row
exists, all its mutable fields are overwritten. -/
theorem update_absent_no_not_found (st : DBState) (isbn title : String)
    (publication_year price : Int) (publisher_name : String)
    (author_id : Nat) (id : Nat) (name url address : String) :
    ((∀ b ∈ st.books, b.isbn ≠ isbn) →
     (∀ ba ∈ st.bookauthors, ba.book_isbn ≠ isbn) →
      putBook st isbn title publication_year price publisher_name author_id
        = (st, .redirect "/books"))
  ∧ (∀ b ∈ st.books, b.isbn = isbn →
      { b with title := title, year := publication_year, price := price,
               publisher_name := publisher_name }
        ∈ (putBook st isbn title publication_year price publisher_name
            author_id).1.books)
  ∧ ((∀ a ∈ st.authors, a.author_id ≠ id) →
      putAuthor st id name url address = (st, .redirect "/authors"))
  ∧ (∀ a ∈ st.authors, a.author_id = id →
      { a with name := name, url := url, address := address }
        ∈ (putAuthor st id name url address).1.authors) := by
  refine ⟨?_, ?_, ?_, ?_⟩
  · intro hb hba
    obtain ⟨bs, as, ps, bas⟩ := st
    have h1 : bs.map (fun (b : Book) =>
        if b.isbn == isbn then
          { b with title := title, year := publication_year, price := price,
                   publisher_name := publisher_name }
        else b) = bs :=
      map_self_of_forall (fun b hbm => by simp [hb b hbm])
    have h2 : bas.map (fun (ba : BookAuthor) =>
        if ba.book_isbn == isbn then { ba with author_id := author_id }
        else ba) = bas :=
      map_self_of_forall (fun ba hbam => by simp [hba ba hbam])
    have key : putBook ⟨bs, as, ps, bas⟩ isbn title publication_year price
        publisher_name author_id
      = (⟨bs.map (fun (b : Book) =>
            if b.isbn == isbn then
              { b with title := title, year := publication_year,
                       price := price, publisher_name := publisher_name }
            else b), as, ps,
          bas.map (fun (ba : BookAuthor) =>
            if ba.book_isbn == isbn then { ba with author_id := author_id }
            else ba)⟩, .redirect "/books") := rfl
    rw [key, h1, h2]
  · intro b hbm hbi
    have := List.mem_map_of_mem (fun (b : Book) =>
      if b.isbn == isbn then
        { b with title := title, year := publication_year, price := price,
                 publisher_name := publisher_name }
      else b) hbm
    simpa [putBook, hbi] using this
  · intro ha
    obtain ⟨bs, as, ps, bas⟩ := st
    have h1 : as.map (fun (a : Author) =>
        if a.author_id == id then
          { a with name := name, url := url, address := address }
        else a) = as :=
      map_self_of_forall (fun a ham => by simp [ha a ham])
    have key : putAuthor ⟨bs, as, ps, bas⟩ id name url address
      = (⟨bs, as.map (fun (a : Author) =>
            if a.author_id == id then
              { a with name := name, url := url, address := address }
            else a), ps, bas⟩, .redirect "/authors") := rfl
    rw [key, h1]
  · intro a ham hai
    have := List.mem_map_of_mem (fun (a : Author) =>
      if a.author_id == id then
        { a with name := name, url := url, address := address }
      else a) ham
    simpa [putAuthor, hai] using this

/-- Witness for C4's amended statement: overwriting an existing book and
updating an absent author id on a one-book store. -/
theorem update_absent_no_not_found_witness :
    ({ isbn := "111", title := "T2", year := 1999, price := 3,
       publisher_name := "Q" } : Book)
      ∈ (putBook ⟨[⟨"111", "T", 2020, 10, "P"⟩], [], [], []⟩
          "111" "T2" 1999 3 "Q" 1).1.books
  ∧ putAuthor ⟨[⟨"111", "T", 2020, 10, "P"⟩], [], [], []⟩ 5 "N" "u" "a"
      = (⟨[⟨"111", "T", 2020, 10, "P"⟩], [], [], []⟩, .redirect "/authors") :=
  ⟨(update_absent_no_not_found ⟨[⟨"111", "T", 2020, 10, "P"⟩], [], [], []⟩
      "111" "T2" 1999 3 "Q" 1 5 "N" "u" "a").2.1
      ⟨"111", "T", 2020, 10, "P"⟩ (by decide) (by decide),
   (update_absent_no_not_found ⟨[⟨"111", "T", 2020, 10, "P"⟩], [], [], []⟩
      "111" "T2" 1999 3 "Q" 1 5 "N" "u" "a").2.2.1 (by decide)⟩

/-- C7: deleting an existing book removes its join rows and the book
row; afterwards looking the ISBN up finds nothing (NotFound) and no join
row references it. -/
theorem deleteBook_cascade (st : DBState) (isbn : String)
    (h : ∃ b ∈ st.books, b.isbn = isbn) :
    (deleteBook st isbn).2 = .redirect "/books"
  ∧ getBook (deleteBook st isbn).1 isbn = none
  ∧ ∀ ba ∈ (deleteBook st isbn).1.bookauthors, ba.book_isbn ≠ isbn := by
  obtain ⟨b, hb, hbi⟩ := h
  cases hf : st.books.find? (fun b => b.isbn == isbn) with
  | none =>
    exact absurd (List.find?_eq_none.mp hf b hb) (by simp [hbi])
  | some b0 =>
    refine ⟨by simp [deleteBook, hf], ?_, ?_⟩
    · have : ∀ b' ∈ st.books.filter (fun b => !(b.isbn == isbn)),
          ¬(b'.isbn == isbn) = true := by
        intro b' hb'
        have := (List.mem_filter.mp hb').2
        simpa using this
      simp only [deleteBook, hf, getBook]
      exact List.find?_eq_none.mpr this
    · intro ba hba
      simp only [deleteBook, hf] at hba
      have := (List.mem_filter.mp hba).2
      simpa using this

/-- Witness for C7 on a store holding one book with one author link. -/
theorem deleteBook_cascade_witness :
    (deleteBook ⟨[⟨"111", "T", 2020, 10, "P"⟩], [⟨1, "N", "u", "a"⟩], [],
        [⟨1, "111"⟩]⟩ "111").2 = .redirect "/books"
  ∧ getBook (deleteBook ⟨[⟨"111", "T", 2020, 10, "P"⟩], [⟨1, "N", "u", "a"⟩],
        [], [⟨1, "111"⟩]⟩ "111").1 "111" = none :=
  ⟨(deleteBook_cascade ⟨[⟨"111", "T", 2020, 10, "P"⟩], [⟨1, "N", "u", "a"⟩],
      [], [⟨1, "111"⟩]⟩ "111" (by decide)).1,
   (deleteBook_cascade ⟨[⟨"111", "T", 2020, 10, "P"⟩], [⟨1, "N", "u", "a"⟩],
      [], [⟨1, "111"⟩]⟩ "111" (by decide)).2.1⟩

/-- After the reattribution UPDATE, no book carries the old publisher
name (provided the new name differs). -/
theorem reattributeBooks_no_old (bs : List Book) (oldName newName : String)
    (h : newName ≠ oldName) :
    ∀ b ∈ reattributeBooks bs oldName newName, b.publisher_name ≠ oldName := by
  intro b hb
  simp only [reattributeBooks, List.mem_map] at hb
  obtain ⟨b0, _, rfl⟩ := hb
  by_cases h0 : b0.publisher_name = oldName
  · simp [h0, h]
  · simp [h0]

/-- C1: the publisher rename runs its two UPDATEs inside one
transaction: on any statement error the handler surfaces a generic
failure and the store is returned unchanged; otherwise the publisher row
is rewritten, the books are reattributed exactly when the new name
differs from the old, and afterwards no book row points at the old
name. -/
theorem putPublisher_rename_atomic (st : DBState)
    (name new_name address phone : String) (err1 err2 : Bool) :
    (err1 = true ∨ (new_name ≠ name ∧ err2 = true) →
      putPublisher st name new_name address phone err1 err2
        = (st, .serverError))
  ∧ (err1 = false → (new_name ≠ name → err2 = false) →
      (putPublisher st name new_name address phone err1 err2).2
          = .redirect "/publishers"
      ∧ (putPublisher st name new_name address phone err1 err2).1.publishers
          = updatePublisherRow st.publishers name new_name address phone
      ∧ (new_name = name →
          (putPublisher st name new_name address phone err1 err2).1.books
            = st.books)
      ∧ (new_name ≠ name →
          (putPublisher st name new_name address phone err1 err2).1.books
            = reattributeBooks st.books name new_name
          ∧ ∀ b ∈ (putPublisher st name new_name address phone
              err1 err2).1.books, b.publisher_name ≠ name)) := by
  constructor
  · rintro (h1 | ⟨hne, h2⟩)
    · simp [putPublisher, h1]
    · cases he1 : err1 with
      | true => simp [putPublisher]
      | false => simp [putPublisher, hne, h2]
  · intro he1 he2
    subst he1
    by_cases hne : new_name = name
    · simp [putPublisher, hne]
    · have he2' := he2 hne
      subst he2'
      refine ⟨by simp [putPublisher, hne], by simp [putPublisher, hne],
        fun hc => absurd hc hne, fun _ => ⟨by simp [putPublisher, hne], ?_⟩⟩
      have hbooks : (putPublisher st name new_name address phone false
          false).1.books = reattributeBooks st.books name new_name := by
        simp [putPublisher, hne]
      rw [hbooks]
      exact reattributeBooks_no_old st.books name new_name hne

/-- Witness for C1: renaming publisher "A" to "B" with no statement
error redirects and reattributes the book table. -/
theorem putPublisher_rename_atomic_witness :
    (putPublisher ⟨[⟨"111", "T", 2020, 10, "A"⟩], [],
        [⟨"A", "ad", "u", "ph"⟩], []⟩ "A" "B" "ad2" "ph2" false false).2
      = .redirect "/publishers"
  ∧ (putPublisher ⟨[⟨"111", "T", 2020, 10, "A"⟩], [],
        [⟨"A", "ad", "u", "ph"⟩], []⟩ "A" "B" "ad2" "ph2" false false).1.books
      = reattributeBooks [⟨"111", "T", 2020, 10, "A"⟩] "A" "B" :=
  ⟨((putPublisher_rename_atomic ⟨[⟨"111", "T", 2020, 10, "A"⟩], [],
      [⟨"A", "ad", "u", "ph"⟩], []⟩ "A" "B" "ad2" "ph2" false false).2
      rfl (fun _ => rfl)).1,
   (((putPublisher_rename_atomic ⟨[⟨"111", "T", 2020, 10, "A"⟩], [],
      [⟨"A", "ad", "u", "ph"⟩], []⟩ "A" "B" "ad2" "ph2" false false).2
      rfl (fun _ => rfl)).2.2.2 (by decide)).1⟩

/-- Row membership after the per-book join-row deletion loop of the
publisher delete. -/
theorem mem_deleteJoinRowsFor {bas : List BookAuthor} {isbns : List String}
    {ba : BookAuthor} :
    ba ∈ deleteJoinRowsFor bas isbns
      ↔ ba ∈ bas ∧ ∀ i ∈ isbns, ba.book_isbn ≠ i := by
  induction isbns generalizing bas with
  | nil => simp [deleteJoinRowsFor]
  | cons i is ih =>
    have step : deleteJoinRowsFor bas (i :: is)
        = deleteJoinRowsFor (bas.filter (fun ba => !(ba.book_isbn == i))) is :=
      rfl
    rw [step, ih]
    simp only [List.mem_filter, List.forall_mem_cons, Bool.not_eq_true',
      beq_eq_false_iff_ne, ne_eq, and_assoc]

/-- C3: deleting an existing publisher removes the join rows of its
books, the books themselves, and the publisher row; afterwards no book
carries the publisher's name, no join row references a deleted ISBN, and
(ISBN being the unique book key) none of the deleted ISBNs survives in
the book listing. -/
theorem deletePublisher_cascade (st : DBState) (name : String)
    (hex : ∃ p ∈ st.publishers, p.name = name)
    (hkey : (st.books.map (fun b => b.isbn)).Nodup) :
    (deletePublisher st name).2 = .redirect "/publishers"
  ∧ (∀ b ∈ (deletePublisher st name).1.books, b.publisher_name ≠ name)
  ∧ (∀ ba ∈ (deletePublisher st name).1.bookauthors,
      ∀ i ∈ publisherBookIsbns st name, ba.book_isbn ≠ i)
  ∧ (∀ p ∈ (deletePublisher st name).1.publishers, p.name ≠ name)
  ∧ (∀ b ∈ (deletePublisher st name).1.books,
      ∀ i ∈ publisherBookIsbns st name, b.isbn ≠ i) := by
  obtain ⟨p0, hp0, hp0n⟩ := hex
  cases hf : st.publishers.find? (fun p => p.name == name) with
  | none => exact absurd (List.find?_eq_none.mp hf p0 hp0) (by simp [hp0n])
  | some q =>
    refine ⟨by simp [deletePublisher, hf], ?_, ?_, ?_, ?_⟩
    · intro b hb
      simp only [deletePublisher, hf] at hb
      have := (List.mem_filter.mp hb).2
      simpa using this
    · intro ba hba i hi
      simp only [deletePublisher, hf] at hba
      exact (mem_deleteJoinRowsFor.mp hba).2 i hi
    · intro p hp
      simp only [deletePublisher, hf] at hp
      have := (List.mem_filter.mp hp).2
      simpa using this
    · intro b hb i hi
      simp only [deletePublisher, hf] at hb
      have hmem := List.mem_filter.mp hb
      have hbneq : ¬ b.publisher_name = name := by simpa using hmem.2
      simp only [publisherBookIsbns, List.mem_map] at hi
      obtain ⟨b0, hb0f, rfl⟩ := hi
      have hb0 := List.mem_filter.mp hb0f
      intro hcontra
      have heq : b = b0 :=
        List.inj_on_of_nodup_map hkey hmem.1 hb0.1 hcontra
      apply hbneq
      rw [heq]
      simpa using hb0.2

/-- Witness for C3: deleting publisher "P" with two attributed books and
their author links redirects to the publisher listing. -/
theorem deletePublisher_cascade_witness :
    (deletePublisher ⟨[⟨"111", "T", 2020, 10, "P"⟩, ⟨"222", "S", 2021, 8, "P"⟩],
        [⟨1, "N", "u", "a"⟩], [⟨"P", "ad", "u", "ph"⟩],
        [⟨1, "111"⟩, ⟨1, "222"⟩]⟩ "P").2 = .redirect "/publishers" :=
  (deletePublisher_cascade
    ⟨[⟨"111", "T", 2020, 10, "P"⟩, ⟨"222", "S", 2021, 8, "P"⟩],
     [⟨1, "N", "u", "a"⟩], [⟨"P", "ad", "u", "ph"⟩],
     [⟨1, "111"⟩, ⟨1, "222"⟩]⟩ "P" (by decide) (by decide)).1

/-- A store whose join rows all reference existing books has no link for
an ISBN that no book carries. -/
theorem links_filter_nil (st : DBState) (isbn : String)
    (href : ∀ ba ∈ st.bookauthors, ∃ b ∈ st.books, b.isbn = ba.book_isbn)
    (habs : ∀ b ∈ st.books, b.isbn ≠ isbn) :
    st.bookauthors.filter (fun ba => ba.book_isbn == isbn) = [] := by
  rw [List.filter_eq_nil_iff]
  intro ba hba
  obtain ⟨b, hb, hbi⟩ := href ba hba
  simp only [beq_iff_eq]
  intro hc
  exact habs b hb (by rw [hbi, hc])

/-- A row-wise rewrite that preserves a filter predicate pointwise
preserves the filtered row count. -/
theorem length_filter_map_eq {α : Type} (f : α → α) (p : α → Bool)
    (l : List α) (h : ∀ a, p (f a) = p a) :
    ((l.map f).filter p).length = (l.filter p).length := by
  induction l with
  | nil => rfl
  | cons a as ih =>
    simp only [List.map_cons, List.filter_cons, h a]
    cases p a <;> simp [ih]

/-- The author-relation UPDATE of `PUT /books/:isbn` rewrites rows in
place: it never changes how many join rows any ISBN has. -/
theorem linkCount_update (bas : List BookAuthor) (aid : Nat)
    (isbn i : String) :
    ((bas.map (fun (ba : BookAuthor) =>
        if ba.book_isbn == isbn then { ba with author_id := aid }
        else ba)).filter (fun ba => ba.book_isbn == i)).length
    = (bas.filter (fun ba => ba.book_isbn == i)).length := by
  apply length_filter_map_eq
  intro ba
  by_cases hc : ba.book_isbn = isbn <;> simp [hc]

/-- C9: starting from a store whose join rows reference existing books
and carry at most one link per ISBN, book creation and book update keep
every ISBN at no more than one author link; a successful creation gives
the new ISBN exactly one link, and the update leaves every ISBN's link
count untouched (it replaces, never appends). -/
theorem author_link_at_most_one (st : DBState)
    (href : ∀ ba ∈ st.bookauthors, ∃ b ∈ st.books, b.isbn = ba.book_isbn)
    (hone : ∀ i, linkCount st i ≤ 1) :
    (∀ isbn title publication_year price publisher_name author_id i,
      linkCount (createBook st isbn title publication_year price
        publisher_name author_id).1 i ≤ 1)
  ∧ (∀ isbn title publication_year price publisher_name author_id,
      (∀ b ∈ st.books, b.isbn ≠ isbn) →
      (∃ a ∈ st.authors, a.author_id = author_id) →
      linkCount (createBook st isbn title publication_year price
        publisher_name author_id).1 isbn = 1)
  ∧ (∀ isbn title publication_year price publisher_name author_id i,
      linkCount (putBook st isbn title publication_year price
        publisher_name author_id).1 i = linkCount st i) := by
  refine ⟨?_, ?_, ?_⟩
  · intro isbn title py pr pub aid i
    cases hdup : st.books.any (fun b => b.isbn == isbn) with
    | true =>
      simpa [createBook, hdup] using hone i
    | false =>
      have habs : ∀ b ∈ st.books, b.isbn ≠ isbn := by
        intro b hb hc
        have : st.books.any (fun b => b.isbn == isbn) = true :=
          List.any_eq_true.mpr ⟨b, hb, by simp [hc]⟩
        rw [hdup] at this
        exact Bool.false_ne_true this
      cases hauth : st.authors.any (fun a => a.author_id == aid) with
      | false =>
        simpa [createBook, hdup, hauth, linkCount] using hone i
      | true =>
        have key : (createBook st isbn title py pr pub aid).1.bookauthors
            = st.bookauthors ++ [⟨aid, isbn⟩] := by
          simp [createBook, hdup, hauth]
        simp only [linkCount, key, List.filter_append, List.length_append]
        by_cases hi : i = isbn
        · subst hi
          rw [links_filter_nil st i href habs]
          simp
        · have hii : (isbn == i) = false := by
            simp only [beq_eq_false_iff_ne, ne_eq]
            exact fun hc => hi hc.symm
          have hsing : (List.filter (fun ba => ba.book_isbn == i)
              [(⟨aid, isbn⟩ : BookAuthor)]) = [] := by
            simp [List.filter_cons, hii]
          rw [hsing]
          simpa [linkCount] using hone i
  · intro isbn title py pr pub aid habs hauth
    have hdup : st.books.any (fun b => b.isbn == isbn) = false := by
      cases hd : st.books.any (fun b => b.isbn == isbn) with
      | false => rfl
      | true =>
        obtain ⟨b, hb, hc⟩ := List.any_eq_true.mp hd
        exact absurd (by simpa using hc) (habs b hb)
    have hau : st.authors.any (fun a => a.author_id == aid) = true := by
      obtain ⟨a, ha, hai⟩ := hauth
      exact List.any_eq_true.mpr ⟨a, ha, by simp [hai]⟩
    have key : (createBook st isbn title py pr pub aid).1.bookauthors
        = st.bookauthors ++ [⟨aid, isbn⟩] := by
      simp [createBook, hdup, hau]
    simp only [linkCount, key, List.filter_append, List.length_append]
    rw [links_filter_nil st isbn href habs]
    simp
  · intro isbn title py pr pub aid i
    have key : (putBook st isbn title py pr pub aid).1.bookauthors
        = st.bookauthors.map (fun (ba : BookAuthor) =>
            if ba.book_isbn == isbn then { ba with author_id := aid }
            else ba) := rfl
    simp only [linkCount, key]
    exact linkCount_update st.bookauthors aid isbn i

/-- Witness for C9: creating ISBN "222" on a one-book store gives the
new ISBN exactly one author link. -/
theorem author_link_at_most_one_witness :
    linkCount (createBook ⟨[⟨"111", "T", 2020, 10, "P"⟩],
      [⟨1, "N", "u", "a"⟩], [], [⟨1, "111"⟩]⟩
      "222" "S" 2021 8 "P" 1).1 "222" = 1 :=
  (author_link_at_most_one ⟨[⟨"111", "T", 2020, 10, "P"⟩],
      [⟨1, "N", "u", "a"⟩], [], [⟨1, "111"⟩]⟩
    (by decide)
    (by
      intro i
      simp only [linkCount]
      cases h : (("111" : String) == i) <;>
        simp [List.filter_cons, h])).2.1
    "222" "S" 2021 8 "P" 1 (by decide) (by decide)

end BookStore
